import Mathlib

/-!
Verification development for the Entity value object of a feature-store SDK
(file sdk/python/feast/entity.py). The Python class is shallowly embedded:
its fields become a Lean structure, its methods become pure functions, and
the external protobuf wire messages and the generic dictionary form become
explicit Lean structures. Methods that raise become Except-valued functions.
-/

namespace Feast

/-- Modelled from the spec: the external enumerated value-type domain
(feast.value_type.ValueType, not part of the visible source) is an opaque
closed enumeration of numeric codes whose unknown sentinel fails validation.
It is embedded as the numeric code, with 0 the unknown sentinel; Python
truthiness of a value-type is falsity of the sentinel. -/
abbrev ValueType := Nat

/-- The unknown sentinel of the value-type domain. -/
def ValueType.UNKNOWN : ValueType := 0

/-- Labels: a mapping of string to string, embedded as an association list. -/
abbrev Labels := List (String × String)

/-- Timestamps (Python datetime values) are embedded as abstract instants;
the protobuf Timestamp conversions FromDatetime and ToDatetime are mutually
inverse on them and are embedded as the identity. -/
abbrev Instant := Nat

/-- The spec sub-message EntitySpecV2 of the wire format: name, description,
value-type numeric code, labels, join key. Proto3 scalar fields default to
zero values. -/
structure EntitySpecProto where
  name : String
  description : String
  value_type : Nat
  labels : Labels
  join_key : String
deriving DecidableEq, Repr

/-- The meta sub-message EntityMeta of the wire format: two optional
timestamps, with explicit field presence (HasField). -/
structure EntityMetaProto where
  created_timestamp : Option Instant
  last_updated_timestamp : Option Instant
deriving DecidableEq, Repr

/-- The wire message Entity (EntityV2Proto) with its spec and meta sections. -/
structure EntityV2Proto where
  spec : EntitySpecProto
  meta : EntityMetaProto
deriving DecidableEq, Repr

/-- The Entity value object: name, value type, join key, description, labels,
owner, and two optional timestamps. The owner attribute is declared on the
Python class but never assigned by the constructor, so it is embedded as an
optional field that construction leaves unset. -/
structure Entity where
  name : String
  value_type : ValueType
  join_key : String
  description : String
  labels : Labels
  owner : Option String
  created_timestamp : Option Instant
  last_updated_timestamp : Option Instant
deriving DecidableEq, Repr

/-- The constructor Entity.__init__: stores name, value type and description
as given; join key falls back to name when the argument is absent or empty
(Python falsiness of an optional string); labels default to the empty
mapping; both timestamps start unset. -/
def entityInit (name : String) (value_type : ValueType) (description : String)
    (join_key : Option String) (labels : Option Labels) : Entity :=
  { name := name
    value_type := value_type
    join_key :=
      match join_key with
      | some jk => if jk = "" then name else jk
      | none => name
    description := description
    labels :=
      match labels with
      | none => []
      | some l => l
    owner := none
    created_timestamp := none
    last_updated_timestamp := none }

/-- A Python value handed to the equality operation: either an Entity
instance or any other object, abstracted by a description of it. -/
inductive PyObj where
  | entity (e : Entity)
  | nonEntity (descr : String)

/-- The field comparison inside Entity.__eq__: false as soon as labels,
name, description, value type or join key differ, true otherwise. -/
def entityEqBool (self other : Entity) : Bool :=
  if self.labels ≠ other.labels
      || self.name ≠ other.name
      || self.description ≠ other.description
      || self.value_type ≠ other.value_type
      || self.join_key ≠ other.join_key then
    false
  else
    true

/-- Entity.__eq__: raises TypeError when the argument is not an Entity
instance, otherwise compares the five fields. -/
def entityEqOp (self : Entity) (other : PyObj) : Except String Bool :=
  match other with
  | PyObj.nonEntity _ =>
      Except.error "Comparisons should only involve Entity class objects."
  | PyObj.entity o => Except.ok (entityEqBool self o)

/-- Entity.is_valid: raises ValueError when the name is empty, then raises
ValueError when the value type is the unknown sentinel (Python falsiness of
the value type, modelled from the spec as the sentinel check); returns
nothing on success. The second message is the source's literal, which lacks
the f-prefix and so contains the braces verbatim. -/
def Entity.is_valid (e : Entity) : Except String Unit :=
  if e.name = "" then
    Except.error "No name found in entity."
  else if e.value_type = ValueType.UNKNOWN then
    Except.error "No type found in entity \x7bself.value_type\x7d"
  else
    Except.ok ()

/-- Entity.to_proto: builds the meta section with each timestamp copied only
when set (a datetime is always truthy in Python, so the guard is presence),
and the spec section from name, description, the value-type numeric code,
labels and join key. -/
def Entity.to_proto (e : Entity) : EntityV2Proto :=
  { spec :=
      { name := e.name
        description := e.description
        value_type := e.value_type
        labels := e.labels
        join_key := e.join_key }
    meta :=
      { created_timestamp :=
          match e.created_timestamp with
          | some t => some t
          | none => none
        last_updated_timestamp :=
          match e.last_updated_timestamp with
          | some t => some t
          | none => none } }

/-- Entity.from_proto: constructs an Entity from the spec section (the value
type code mapped through the value-type domain, the embedded identity), then
copies each meta timestamp into the fresh object only when present on the
wire message. -/
def Entity.from_proto (p : EntityV2Proto) : Entity :=
  let e := entityInit p.spec.name p.spec.value_type p.spec.description
    (some p.spec.join_key) (some p.spec.labels)
  { e with
    created_timestamp :=
      match p.meta.created_timestamp with
      | some t => some t
      | none => e.created_timestamp
    last_updated_timestamp :=
      match p.meta.last_updated_timestamp with
      | some t => some t
      | none => e.last_updated_timestamp }

/-- Entity.to_spec_proto: builds only the spec section of the wire message. -/
def Entity.to_spec_proto (e : Entity) : EntitySpecProto :=
  { name := e.name
    description := e.description
    value_type := e.value_type
    labels := e.labels
    join_key := e.join_key }

/-- Entity._update_from_entity: wholesale replaces name, description, value
type, labels, join key and both timestamps of the receiver with the other
entity's fields; the owner attribute is not touched. -/
def Entity.update_from (self other : Entity) : Entity :=
  { self with
    name := other.name
    description := other.description
    value_type := other.value_type
    labels := other.labels
    join_key := other.join_key
    created_timestamp := other.created_timestamp
    last_updated_timestamp := other.last_updated_timestamp }

/-- A generic dictionary value, as produced by the protobuf json mapping:
a string, a number (enum codes and timestamp instants are kept in their
numeric form, per the wire schema of the spec), or a nested mapping. -/
inductive DVal where
  | s (v : String)
  | n (v : Nat)
  | m (v : List (String × DVal))
deriving Repr

/-- Modelled from the spec: the protobuf MessageToDict rendering of the spec
sub-message, mirroring the wire field names; fields holding their zero
values are omitted, per the standard protobuf-to-map rules. -/
def specToDict (s : EntitySpecProto) : List (String × DVal) :=
  (if s.name = "" then [] else [("name", DVal.s s.name)])
    ++ (if s.description = "" then [] else [("description", DVal.s s.description)])
    ++ (if s.value_type = 0 then [] else [("valueType", DVal.n s.value_type)])
    ++ (if s.labels = [] then []
        else [("labels", DVal.m (s.labels.map fun kv => (kv.1, DVal.s kv.2)))])
    ++ (if s.join_key = "" then [] else [("joinKey", DVal.s s.join_key)])

/-- Modelled from the spec: the protobuf MessageToDict rendering of the meta
sub-message; each timestamp appears exactly when present on the message. -/
def metaToDict (t : EntityMetaProto) : List (String × DVal) :=
  (match t.created_timestamp with
    | some v => [("createdTimestamp", DVal.n v)]
    | none => [])
    ++ (match t.last_updated_timestamp with
        | some v => [("lastUpdatedTimestamp", DVal.n v)]
        | none => [])

/-- Modelled from the spec: MessageToDict on the whole wire message; both
sub-messages are set by to_proto, so both keys are present, the sub-mapping
possibly empty. -/
def entityProtoToDict (p : EntityV2Proto) : List (String × DVal) :=
  [("spec", DVal.m (specToDict p.spec)), ("meta", DVal.m (metaToDict p.meta))]

/-- The meta-removal step of Entity.to_dict: when the mapping carries an
empty meta sub-mapping, the meta key is deleted. -/
def trimMeta (d : List (String × DVal)) : List (String × DVal) :=
  match d.lookup "meta" with
  | some (DVal.m []) => d.filter fun kv => kv.1 ≠ "meta"
  | _ => d

/-- Entity.to_dict: converts the to_proto output to a mapping, then removes
the meta key entirely when its sub-mapping is empty. -/
def Entity.to_dict (e : Entity) : List (String × DVal) :=
  trimMeta (entityProtoToDict e.to_proto)

/-- A field lookup of json_format.ParseDict: a wire field is addressed by
its lowerCamelCase json name or by its original snake_case proto name. -/
def lookupField (d : List (String × DVal)) (camel snake : String) : Option DVal :=
  match d.lookup camel with
  | some v => some v
  | none => d.lookup snake

/-- Reading a string wire field from a mapping: absent means the proto zero
value, a non-string value is a parse error. -/
def getStrField (d : List (String × DVal)) (camel snake : String) :
    Except String String :=
  match lookupField d camel snake with
  | none => Except.ok ""
  | some (DVal.s v) => Except.ok v
  | some _ => Except.error ("Failed to parse field " ++ camel ++ ".")

/-- Reading a numeric wire field from a mapping: absent means zero, a
non-numeric value is a parse error. -/
def getNatField (d : List (String × DVal)) (camel snake : String) :
    Except String Nat :=
  match lookupField d camel snake with
  | none => Except.ok 0
  | some (DVal.n v) => Except.ok v
  | some _ => Except.error ("Failed to parse field " ++ camel ++ ".")

/-- Reading an optional timestamp wire field: absent leaves the field unset. -/
def getTsField (d : List (String × DVal)) (camel snake : String) :
    Except String (Option Instant) :=
  match lookupField d camel snake with
  | none => Except.ok none
  | some (DVal.n v) => Except.ok (some v)
  | some _ => Except.error ("Failed to parse field " ++ camel ++ ".")

/-- Parsing the entries of a labels mapping, in order, each entry required
to hold a string value; the first bad entry is a parse error. -/
def parseLabelList : List (String × DVal) → Except String Labels
  | [] => Except.ok []
  | (k, DVal.s v) :: rest => (parseLabelList rest).map fun l => (k, v) :: l
  | _ :: _ => Except.error "Failed to parse a label value."

/-- Parsing the labels mapping: every entry must map a string key to a
string value. -/
def parseLabels : DVal → Except String Labels
  | DVal.m entries => parseLabelList entries
  | _ => Except.error "Failed to parse field labels."

/-- Modelled from the spec: json_format.ParseDict on the spec sub-mapping,
with unknown fields ignored (only the known wire fields are consulted). -/
def parseSpec (d : List (String × DVal)) : Except String EntitySpecProto := do
  let name ← getStrField d "name" "name"
  let description ← getStrField d "description" "description"
  let value_type ← getNatField d "valueType" "value_type"
  let labels ←
    match lookupField d "labels" "labels" with
    | none => Except.ok ([] : Labels)
    | some v => parseLabels v
  let join_key ← getStrField d "joinKey" "join_key"
  Except.ok
    { name := name
      description := description
      value_type := value_type
      labels := labels
      join_key := join_key }

/-- Modelled from the spec: json_format.ParseDict on the meta sub-mapping. -/
def parseMeta (d : List (String × DVal)) : Except String EntityMetaProto := do
  let created_timestamp ← getTsField d "createdTimestamp" "created_timestamp"
  let last_updated_timestamp ←
    getTsField d "lastUpdatedTimestamp" "last_updated_timestamp"
  Except.ok
    { created_timestamp := created_timestamp
      last_updated_timestamp := last_updated_timestamp }

/-- Modelled from the spec: json_format.ParseDict with ignore_unknown_fields
set, at the top level of the wire message: a missing spec or meta sub-mapping
leaves the sub-message at its default, unknown keys are never consulted, and
a non-mapping input is a parse error. -/
def parseEntityDict : DVal → Except String EntityV2Proto
  | DVal.m fields => do
      let spec ←
        match fields.lookup "spec" with
        | none =>
            Except.ok
              ({ name := ""
                 description := ""
                 value_type := 0
                 labels := []
                 join_key := "" } : EntitySpecProto)
        | some (DVal.m sd) => parseSpec sd
        | some _ => Except.error "Failed to parse field spec."
      let meta ←
        match fields.lookup "meta" with
        | none =>
            Except.ok
              ({ created_timestamp := none
                 last_updated_timestamp := none } : EntityMetaProto)
        | some (DVal.m md) => parseMeta md
        | some _ => Except.error "Failed to parse field meta."
      Except.ok { spec := spec, meta := meta }
  | _ => Except.error "ParseDict expects a mapping."

/-- Entity.from_dict: parses the mapping into the wire message shape,
ignoring unknown fields, then delegates to from_proto. -/
def Entity.from_dict (d : DVal) : Except String Entity :=
  (parseEntityDict d).map Entity.from_proto

/-- Whether a key names a known wire field of the spec sub-message, in
either its json or its proto spelling. -/
def specKeyKnown (k : String) : Bool :=
  k == "name" || k == "description" || k == "valueType" || k == "value_type"
    || k == "labels" || k == "joinKey" || k == "join_key"

/-- Whether a key names a known wire field of the meta sub-message. -/
def metaKeyKnown (k : String) : Bool :=
  k == "createdTimestamp" || k == "created_timestamp"
    || k == "lastUpdatedTimestamp" || k == "last_updated_timestamp"

/-- Strips unknown keys from a spec sub-mapping value. -/
def stripSpecVal : DVal → DVal
  | DVal.m sd => DVal.m (sd.filter fun en => specKeyKnown en.1)
  | v => v

/-- Strips unknown keys from a meta sub-mapping value. -/
def stripMetaVal : DVal → DVal
  | DVal.m md => DVal.m (md.filter fun en => metaKeyKnown en.1)
  | v => v

/-- Keeps a top-level entry exactly when its key is spec or meta, stripping
unknown keys inside the kept sub-mapping. -/
def stripEntry (kv : String × DVal) : Option (String × DVal) :=
  if kv.1 == "spec" then some (kv.1, stripSpecVal kv.2)
  else if kv.1 == "meta" then some (kv.1, stripMetaVal kv.2)
  else none

/-- Removes every unknown field from an entity mapping: top-level keys other
than spec and meta, and keys inside those sub-mappings that name no wire
field. Entries inside the labels mapping are all known (it is a map field). -/
def stripUnknown : DVal → DVal
  | DVal.m fields => DVal.m (fields.filterMap stripEntry)
  | v => v

/-- Reachability invariant of the Entity class: every instance the class
produces has an empty join key only when its name is empty, because the
constructor makes the join key fall back to the name. -/
def Entity.reachable (e : Entity) : Prop := e.join_key = "" → e.name = ""

/-- A concrete entity with every field populated, used to instantiate the
universally quantified theorems. -/
def sampleEntity : Entity :=
  { name := "driver"
    value_type := 2
    join_key := "driver_id"
    description := "a driver"
    labels := [("team", "hack")]
    owner := some "oss"
    created_timestamp := some 5
    last_updated_timestamp := some 6 }

/-- A concrete entity with no timestamps, empty description and labels. -/
def bareEntity : Entity :=
  { name := "item"
    value_type := 0
    join_key := "item"
    description := ""
    labels := []
    owner := none
    created_timestamp := none
    last_updated_timestamp := none }

theorem entityInit_reachable (name : String) (vt : ValueType) (desc : String)
    (jk : Option String) (lb : Option Labels) :
    (entityInit name vt desc jk lb).reachable := by
  intro h
  cases jk with
  | none => simpa [entityInit] using h
  | some s =>
      by_cases hs : s = "" <;> simp [entityInit, hs] at h <;> simp_all [entityInit]

theorem from_proto_reachable (p : EntityV2Proto) : (Entity.from_proto p).reachable := by
  intro h
  have := entityInit_reachable p.spec.name p.spec.value_type p.spec.description
    (some p.spec.join_key) (some p.spec.labels)
  simp [Entity.from_proto] at h ⊢
  exact this h

theorem update_from_reachable (a b : Entity) (hb : b.reachable) :
    (a.update_from b).reachable := by
  intro h
  exact hb h

/-- Claim C1 counterexample: the Entity whose name is empty and whose value
type is the unknown sentinel. Its is_valid raises the missing-name error, so
the message does not identify the missing type as the claim demands for
every entity with the unknown value type. -/
theorem claim1_counterexample :
    (entityInit "" ValueType.UNKNOWN "" none none).value_type = ValueType.UNKNOWN ∧
    (entityInit "" ValueType.UNKNOWN "" none none).is_valid
      = Except.error "No name found in entity." ∧
    "No name found in entity." ≠ "No type found in entity \x7bself.value_type\x7d" := by
  refine ⟨rfl, rfl, ?_⟩
  decide

/-- Claim C1 (amended): with a non-empty name and a non-unknown value type,
is_valid raises no error; with an empty name it raises the error identifying
the missing name; with a non-empty name and the unknown value type it raises
the error identifying the missing type. -/
theorem claim1_is_valid (e : Entity) :
    (e.name ≠ "" ∧ e.value_type ≠ ValueType.UNKNOWN → e.is_valid = Except.ok ()) ∧
    (e.name = "" → e.is_valid = Except.error "No name found in entity.") ∧
    (e.name ≠ "" ∧ e.value_type = ValueType.UNKNOWN →
      e.is_valid = Except.error "No type found in entity \x7bself.value_type\x7d") := by
  refine ⟨fun h => ?_, fun h => ?_, fun h => ?_⟩
  · simp [Entity.is_valid, h.1, h.2]
  · simp [Entity.is_valid, h]
  · simp [Entity.is_valid, h.1, h.2]

theorem claim1_witness :
    (entityInit "driver" 2 "" none none).is_valid = Except.ok () ∧
    (entityInit "" 2 "" none none).is_valid = Except.error "No name found in entity." ∧
    (entityInit "driver" ValueType.UNKNOWN "" none none).is_valid
      = Except.error "No type found in entity \x7bself.value_type\x7d" :=
  ⟨(claim1_is_valid (entityInit "driver" 2 "" none none)).1 ⟨by decide, by decide⟩,
   (claim1_is_valid (entityInit "" 2 "" none none)).2.1 (by decide),
   (claim1_is_valid (entityInit "driver" ValueType.UNKNOWN "" none none)).2.2
     ⟨by decide, by decide⟩⟩

/-- Claim C4: comparing an Entity to any non-Entity value raises the
TypeError and in particular never returns the boolean false. -/
theorem claim4_eq_non_entity (e : Entity) (d : String) :
    entityEqOp e (PyObj.nonEntity d)
      = Except.error "Comparisons should only involve Entity class objects." ∧
    ∀ b : Bool, entityEqOp e (PyObj.nonEntity d) ≠ Except.ok b := by
  exact ⟨rfl, fun b h => by simp [entityEqOp] at h⟩

/-- Claim C5: between two Entities the equality operation returns true
exactly when labels, name, description, value type and join key all agree,
and the result never depends on either side's timestamps or owner. -/
theorem claim5_eq_fields (a b : Entity) :
    (entityEqOp a (PyObj.entity b) = Except.ok true ↔
      a.labels = b.labels ∧ a.name = b.name ∧ a.description = b.description ∧
        a.value_type = b.value_type ∧ a.join_key = b.join_key) ∧
    (∀ ct lt ow ct' lt' ow',
      entityEqOp
          { a with created_timestamp := ct, last_updated_timestamp := lt, owner := ow }
          (PyObj.entity
            { b with created_timestamp := ct', last_updated_timestamp := lt', owner := ow' })
        = entityEqOp a (PyObj.entity b)) := by
  constructor
  · simp [entityEqOp, entityEqBool]
    tauto
  · intro ct lt ow ct' lt' ow'
    rfl

/-- Claim C6 counterexample: the constructor called with the empty name and
no join-key argument produces an empty join key, so the constructed join key
is not always non-empty. -/
theorem claim6_counterexample :
    (entityInit "" ValueType.UNKNOWN "" none none).join_key = "" := rfl

/-- Claim C6 (amended): an Entity produced by the constructor has a
non-empty join_key provided the name is non-empty or the join-key argument
is a non-empty string; in particular any construction with a non-empty name
yields a non-empty join key whatever the join-key argument is. -/
theorem claim6_join_key (name : String) (vt : ValueType) (desc : String)
    (jk : Option String) (lb : Option Labels)
    (h : name ≠ "" ∨ ∃ s, jk = some s ∧ s ≠ "") :
    (entityInit name vt desc jk lb).join_key ≠ "" := by
  cases jk with
  | none =>
      rcases h with h | ⟨s, hs, _⟩
      · simpa [entityInit] using h
      · cases hs
  | some s =>
      by_cases hs : s = ""
      · rcases h with h | ⟨s', hs', hne⟩
        · simpa [entityInit, hs] using h
        · cases hs'
          exact absurd hs hne
      · simpa [entityInit, hs] using hs

theorem claim6_witness :
    (entityInit "driver_id" ValueType.UNKNOWN "" none none).join_key ≠ "" ∧
    (entityInit "" ValueType.UNKNOWN "" (some "dk") none).join_key ≠ "" :=
  ⟨claim6_join_key "driver_id" ValueType.UNKNOWN "" none none (Or.inl (by decide)),
   claim6_join_key "" ValueType.UNKNOWN "" (some "dk") none
     (Or.inr ⟨"dk", rfl, by decide⟩)⟩

/-- Claim C8: after update_from, each of the seven fields name, description,
value type, labels, join key and the two timestamps of the receiver equals
the corresponding field of the other entity, the timestamps even when unset
on the other entity. -/
theorem claim8_update_from (a b : Entity) :
    (a.update_from b).name = b.name ∧
    (a.update_from b).description = b.description ∧
    (a.update_from b).value_type = b.value_type ∧
    (a.update_from b).labels = b.labels ∧
    (a.update_from b).join_key = b.join_key ∧
    (a.update_from b).created_timestamp = b.created_timestamp ∧
    (a.update_from b).last_updated_timestamp = b.last_updated_timestamp :=
  ⟨rfl, rfl, rfl, rfl, rfl, rfl, rfl⟩

/-- Claim C10: the message built by to_spec_proto is exactly the spec
section of the wire message built by to_proto, so name, description, the
value-type numeric code, labels and join key all agree. -/
theorem claim10_spec_proto (e : Entity) : e.to_spec_proto = (e.to_proto).spec := rfl

theorem from_to_proto_fields (e : Entity) (h : e.reachable) :
    Entity.from_proto e.to_proto = { e with owner := none } := by
  cases e with
  | mk n vt jk de lb ow ct lt =>
      cases ct <;> cases lt <;>
        by_cases hjk : jk = "" <;>
          simp_all [Entity.from_proto, Entity.to_proto, entityInit, Entity.reachable]

theorem from_to_proto_eqBool (e : Entity) (h : e.reachable) :
    entityEqBool (Entity.from_proto e.to_proto) e = true := by
  rw [from_to_proto_fields e h]
  simp [entityEqBool]

/-- Claim C2: from_proto of to_proto of any (constructor-reachable) Entity
is equal to it under the defined equality, and each timestamp of the result
equals the original exactly whenever it is set. -/
theorem claim2_proto_roundtrip (e : Entity) (h : e.reachable) :
    entityEqBool (Entity.from_proto e.to_proto) e = true ∧
    (∀ t, e.created_timestamp = some t →
      (Entity.from_proto e.to_proto).created_timestamp = some t) ∧
    (∀ t, e.last_updated_timestamp = some t →
      (Entity.from_proto e.to_proto).last_updated_timestamp = some t) := by
  refine ⟨from_to_proto_eqBool e h, fun t ht => ?_, fun t ht => ?_⟩ <;>
    rw [from_to_proto_fields e h] <;> exact ht

theorem parseLabelList_roundtrip (lb : Labels) :
    parseLabelList (lb.map fun kv => (kv.1, DVal.s kv.2)) = Except.ok lb := by
  induction lb with
  | nil => rfl
  | cons kv rest ih =>
      cases kv with
      | mk k v => simp [parseLabelList, ih, Except.map]

theorem parseSpec_specToDict (s : EntitySpecProto) :
    parseSpec (specToDict s) = Except.ok s := by
  obtain ⟨n, de, vt, lb, jk⟩ := s
  by_cases h1 : n = "" <;> by_cases h2 : de = "" <;> by_cases h3 : vt = 0 <;>
    by_cases h4 : lb = ([] : Labels) <;> by_cases h5 : jk = "" <;>
      simp [specToDict, parseSpec, getStrField, getNatField, lookupField, parseLabels,
        parseLabelList_roundtrip, List.lookup, Bind.bind, Except.bind,
        h1, h2, h3, h4, h5]

theorem parseMeta_metaToDict (t : EntityMetaProto) :
    parseMeta (metaToDict t) = Except.ok t := by
  obtain ⟨ct, lt⟩ := t
  cases ct <;> cases lt <;>
    simp [metaToDict, parseMeta, getTsField, lookupField, List.lookup,
      Bind.bind, Except.bind]

theorem parseEntityDict_trim (p : EntityV2Proto) :
    parseEntityDict (DVal.m (trimMeta (entityProtoToDict p))) = Except.ok p := by
  obtain ⟨sp, mt⟩ := p
  obtain ⟨ct, lt⟩ := mt
  cases ct <;> cases lt <;>
    simp [trimMeta, entityProtoToDict, metaToDict, parseEntityDict, List.lookup,
      List.filter, parseSpec_specToDict, parseMeta, getTsField, lookupField,
      Bind.bind, Except.bind]

theorem claim2_witness :
    entityEqBool (Entity.from_proto sampleEntity.to_proto) sampleEntity = true ∧
    (∀ t, sampleEntity.created_timestamp = some t →
      (Entity.from_proto sampleEntity.to_proto).created_timestamp = some t) ∧
    (∀ t, sampleEntity.last_updated_timestamp = some t →
      (Entity.from_proto sampleEntity.to_proto).last_updated_timestamp = some t) :=
  claim2_proto_roundtrip sampleEntity
    (fun h => absurd h (by decide))

/-- Claim C3: from_dict of to_dict of any (constructor-reachable) Entity
succeeds and yields an Entity equal to it under the defined equality. -/
theorem claim3_dict_roundtrip (e : Entity) (h : e.reachable) :
    (Entity.from_dict (DVal.m e.to_dict)).map (fun x => entityEqBool x e)
      = Except.ok true := by
  simp [Entity.from_dict, Entity.to_dict, parseEntityDict_trim, Except.map,
    from_to_proto_eqBool e h]

theorem claim3_witness :
    (Entity.from_dict (DVal.m sampleEntity.to_dict)).map
        (fun x => entityEqBool x sampleEntity)
      = Except.ok true :=
  claim3_dict_roundtrip sampleEntity (fun h => absurd h (by decide))

/-- Claim C7: the mapping produced by to_dict carries a meta key exactly
when at least one of the two timestamps is set on the entity. -/
theorem claim7_meta_key (e : Entity) :
    (e.to_dict).lookup "meta" = none ↔
      e.created_timestamp = none ∧ e.last_updated_timestamp = none := by
  obtain ⟨n, vt, jk, de, lb, ow, ct, lt⟩ := e
  cases ct <;> cases lt <;>
    simp [Entity.to_dict, trimMeta, entityProtoToDict, metaToDict, Entity.to_proto,
      List.lookup, List.filter]

theorem lookup_filter_key (p : String → Bool) (k : String) (hk : p k = true) :
    ∀ sd : List (String × DVal),
      (sd.filter fun en => p en.1).lookup k = sd.lookup k := by
  intro sd
  induction sd with
  | nil => rfl
  | cons en rest ih =>
      obtain ⟨k', v⟩ := en
      by_cases hk' : p k' = true
      · cases hbeq : (k == k') <;>
          simp [List.lookup, List.filter, hk', hbeq, ih]
      · have hne : (k == k') = false := by
          rcases hbeq : (k == k') with _ | _
          · rfl
          · exact absurd (by rw [← eq_of_beq hbeq]; exact hk) hk'
        simp [List.lookup, List.filter, hk', hne, ih]

theorem lookup_stripTop_spec (fields : List (String × DVal)) :
    (fields.filterMap stripEntry).lookup "spec"
      = (fields.lookup "spec").map stripSpecVal := by
  induction fields with
  | nil => rfl
  | cons en rest ih =>
      obtain ⟨k, v⟩ := en
      by_cases h1 : k = "spec"
      · subst h1
        simp [stripEntry, List.filterMap, List.lookup]
      · by_cases h2 : k = "meta"
        · subst h2
          simp [stripEntry, List.filterMap, List.lookup, ih]
        · have hb1 : (k == "spec") = false := by simp [h1]
          have hb2 : (k == "meta") = false := by simp [h2]
          have hb3 : ("spec" == k) = false := by simp [Ne.symm h1]
          simp [stripEntry, List.filterMap, List.lookup, hb1, hb2, hb3, ih]

theorem lookup_stripTop_meta (fields : List (String × DVal)) :
    (fields.filterMap stripEntry).lookup "meta"
      = (fields.lookup "meta").map stripMetaVal := by
  induction fields with
  | nil => rfl
  | cons en rest ih =>
      obtain ⟨k, v⟩ := en
      by_cases h1 : k = "spec"
      · subst h1
        simp [stripEntry, List.filterMap, List.lookup, ih]
      · by_cases h2 : k = "meta"
        · subst h2
          simp [stripEntry, List.filterMap, List.lookup]
        · have hb1 : (k == "spec") = false := by simp [h1]
          have hb2 : (k == "meta") = false := by simp [h2]
          have hb3 : ("meta" == k) = false := by simp [Ne.symm h2]
          simp [stripEntry, List.filterMap, List.lookup, hb1, hb2, hb3, ih]

theorem parseSpec_filter (sd : List (String × DVal)) :
    parseSpec (sd.filter fun en => specKeyKnown en.1) = parseSpec sd := by
  have h1 := lookup_filter_key specKeyKnown "name" (by decide) sd
  have h2 := lookup_filter_key specKeyKnown "description" (by decide) sd
  have h3 := lookup_filter_key specKeyKnown "valueType" (by decide) sd
  have h4 := lookup_filter_key specKeyKnown "value_type" (by decide) sd
  have h5 := lookup_filter_key specKeyKnown "labels" (by decide) sd
  have h6 := lookup_filter_key specKeyKnown "joinKey" (by decide) sd
  have h7 := lookup_filter_key specKeyKnown "join_key" (by decide) sd
  simp only [parseSpec, getStrField, getNatField, lookupField,
    h1, h2, h3, h4, h5, h6, h7]

theorem parseMeta_filter (md : List (String × DVal)) :
    parseMeta (md.filter fun en => metaKeyKnown en.1) = parseMeta md := by
  have h1 := lookup_filter_key metaKeyKnown "createdTimestamp" (by decide) md
  have h2 := lookup_filter_key metaKeyKnown "created_timestamp" (by decide) md
  have h3 := lookup_filter_key metaKeyKnown "lastUpdatedTimestamp" (by decide) md
  have h4 := lookup_filter_key metaKeyKnown "last_updated_timestamp" (by decide) md
  simp only [parseMeta, getTsField, lookupField, h1, h2, h3, h4]

theorem parseEntityDict_strip (fields : List (String × DVal)) :
    parseEntityDict (DVal.m (fields.filterMap stripEntry))
      = parseEntityDict (DVal.m fields) := by
  simp only [parseEntityDict, lookup_stripTop_spec, lookup_stripTop_meta]
  rcases hs : fields.lookup "spec" with _ | sv <;>
    rcases hm : fields.lookup "meta" with _ | mv
  · rfl
  · cases mv <;> simp [stripMetaVal, parseMeta_filter, Option.map]
  · cases sv <;> simp [stripSpecVal, parseSpec_filter, Option.map]
  · cases sv <;> cases mv <;>
      simp [stripSpecVal, stripMetaVal, parseSpec_filter, parseMeta_filter, Option.map]

/-- Claim C9: from_dict consults only the known wire fields, so removing
every unknown field from any input mapping never changes its outcome; in
particular the documented example with an unknown field inside spec
succeeds, yielding the same entity as without it. -/
theorem claim9_unknown_fields :
    (∀ d : DVal, Entity.from_dict (stripUnknown d) = Entity.from_dict d) ∧
    Entity.from_dict
        (DVal.m [("spec", DVal.m [("name", DVal.s "x"), ("unknown_field", DVal.n 1)])])
      = Except.ok
          { name := "x"
            value_type := 0
            join_key := "x"
            description := ""
            labels := []
            owner := none
            created_timestamp := none
            last_updated_timestamp := none } := by
  constructor
  · intro d
    cases d with
    | m fields => simp [Entity.from_dict, stripUnknown, parseEntityDict_strip]
    | s v => rfl
    | n v => rfl
  · rfl

end Feast
